import Mathlib

/-!
Shallow embedding of the cocaine worker protocol engine
(src/cocaine/server/worker.py and src/cocaine/sessioncontext.py).

The engine state is a `Worker` record; every observable effect (outgoing
protocol message, timer start/stop, scheduler stop, process exit, delivery
of a notification to a session's continuation sink) is appended to an
ordered event trace, so ordering properties are provable.

External collaborators (the asio event loop and timers, the Deferred
continuation object, the Response boundary object) are not under src/;
their thin interfaces are modelled from the spec where noted, and
application handler behaviour is parameterized by an environment.
-/

namespace Cocaine

/-- An outgoing protocol message, as written to the writable stream by the
worker's send primitives (worker.py `_send_*` and `terminate`). -/
inductive OutMsg where
  | handshake (id : String)
  | heartbeat
  | terminate (errno : Int) (reason : String)
  | chunk (session : Nat) (data : String)
  | choke (session : Nat)
  | error (session : Nat) (code : Int) (msg : String)
deriving DecidableEq, Repr

/-- A notification delivered to a session's continuation sink (the Deferred
stored in the Session Table): `trigger(data)`, `close()`, or `error(reason)`. -/
inductive SinkEvent where
  | chunkData (data : String)
  | closed
  | errored (reason : String)
deriving DecidableEq, Repr

/-- One observable event of the engine, in the order it happens. -/
inductive Ev where
  | out (m : OutMsg)
  | disownStart
  | disownStop
  | loopStop
  | exited (code : Nat)
  | sink (session : Nat) (e : SinkEvent)
deriving DecidableEq, Repr

/-- Modelled from the spec: the behaviour of a continuation sink (a Deferred
from the `concurrent` module, which is not under src/). `trigger` may raise
(application callbacks run inside it): `triggerFails = some e` means
`trigger` raises an exception whose string form is `e`. Likewise
`closeFails` for `close()`. A successful call is recorded as a `SinkEvent`
on the trace. -/
structure Sink where
  triggerFails : Option String := none
  closeFails : Option String := none
deriving DecidableEq, Repr

/-- The engine state. `sessions` is the Session Table (`Worker.sessions`, a
dict from session id to its Deferred). `disownTimer` models the one-shot
disown watchdog: `some d` means the timer is armed with its full configured
duration `d` (timer internals are in the asio module, not under src/;
start/stop semantics follow the spec). `loopStopped` records `loop.stop()`,
`exitCode` records `exit(1)`. -/
structure Worker where
  sessions : List (Nat × Sink) := []
  disownTimeout : Nat := 2
  disownTimer : Option Nat := none
  loopStopped : Bool := false
  exitCode : Option Nat := none
  trace : List Ev := []
deriving DecidableEq, Repr

/-- A decoded incoming message, after `Message.initialize`; `malformed`
stands for a decode that returned None. -/
inductive Msg where
  | invoke (session : Nat) (event : String)
  | chunk (session : Nat) (data : String)
  | choke (session : Nat)
  | heartbeat
  | terminate (errno : Int) (reason : String)
  | error (session : Nat) (code : Int) (reason : String)
  | malformed
deriving DecidableEq, Repr

/-- An action a handler performs on its Response object. -/
inductive RespAct where
  | write (data : String)
  | close
  | err (code : Int) (msg : String)
deriving DecidableEq, Repr

/-- The observable behaviour of a registered handler when dispatched:
it either returns normally after performing some response actions, raises a
fatal-class error (ImportError or SyntaxError), or raises any other
Exception. -/
inductive HandlerBehavior where
  | returns (acts : List RespAct)
  | raisesFatal (msg : String)
  | raisesRecoverable (msg : String)
deriving DecidableEq, Repr

/-- A Python exception escaping `Sandbox.invoke`, classified the way
`Worker.on_message`'s except clauses classify it. -/
inductive PyErr where
  | fatal (msg : String)
  | recoverable (msg : String)
deriving DecidableEq, Repr

/-- The environment: the Handler Registry contents (`Sandbox._events`) with
each handler's behaviour, and the behaviour of the fresh Deferred created
for each INVOKE session. -/
structure Env where
  registry : List (String × HandlerBehavior)
  newSink : Nat → Sink

/-- Lookup in the Handler Registry (`self._events.get(event_name, None)`). -/
def lookupReg (e : String) : List (String × HandlerBehavior) → Option HandlerBehavior
  | [] => none
  | (k, v) :: rest => if k = e then some v else lookupReg e rest

/-- Session Table lookup (`self.sessions.get(s)` / `self.sessions[s]`). -/
def lookupSession (s : Nat) : List (Nat × Sink) → Option Sink
  | [] => none
  | (k, v) :: rest => if k = s then some v else lookupSession s rest

/-- Session Table assignment (`self.sessions[s] = deferred`): replaces an
existing entry for `s`, otherwise adds one. -/
def setSession (s : Nat) (v : Sink) : List (Nat × Sink) → List (Nat × Sink)
  | [] => [(s, v)]
  | (k, w) :: rest => if k = s then (s, v) :: rest else (k, w) :: setSession s v rest

/-- Session Table removal (`self.sessions.pop(s)`). -/
def popSession (s : Nat) : List (Nat × Sink) → List (Nat × Sink)
  | [] => []
  | (k, w) :: rest => if k = s then rest else (k, w) :: popSession s rest

/-- `Worker._send_handshake`. -/
def send_handshake (id : String) (w : Worker) : Worker :=
  { w with trace := w.trace ++ [.out (.handshake id)] }

/-- `Worker._send_heartbeat`: `self.disown_timer.start()` first — arming the
one-shot watchdog with its full configured duration (timer semantics
modelled from the spec, the asio timer is not under src/) — then the
HEARTBEAT message is written. -/
def send_heartbeat (w : Worker) : Worker :=
  { w with disownTimer := some w.disownTimeout,
           trace := w.trace ++ [.disownStart, .out .heartbeat] }

/-- `Worker._send_chunk`. -/
def send_chunk (session : Nat) (data : String) (w : Worker) : Worker :=
  { w with trace := w.trace ++ [.out (.chunk session data)] }

/-- `Worker._send_choke`. -/
def send_choke (session : Nat) (w : Worker) : Worker :=
  { w with trace := w.trace ++ [.out (.choke session)] }

/-- `Worker._send_error`. -/
def send_error (session : Nat) (code : Int) (msg : String) (w : Worker) : Worker :=
  { w with trace := w.trace ++ [.out (.error session code msg)] }

/-- `Worker.terminate(errno, reason)`: write a TERMINATE message, stop the
loop, `exit(1)`. -/
def terminate (errno : Int) (reason : String) (w : Worker) : Worker :=
  { w with trace := w.trace ++ [.out (.terminate errno reason), .loopStop, .exited 1],
           loopStopped := true, exitCode := some 1 }

/-- `Worker.on_disown`: the disown timer elapsed; the code only logs and
calls `self.loop.stop()` — it writes nothing and does not call `exit`. -/
def on_disown (w : Worker) : Worker :=
  { w with loopStopped := true, trace := w.trace ++ [.loopStop] }

/-- Modelled from the spec: the Response boundary object
(src lacks `server/response.py`); `write` emits a CHUNK, `close` emits a
CHOKE and `error(code, text)` emits an ERROR, each delegating to the
engine's outgoing primitives for the bound session. -/
def respond (session : Nat) (w : Worker) : RespAct → Worker
  | .write d => send_chunk session d w
  | .close => send_choke session w
  | .err c m => send_error session c m w

/-- The sequence of response actions a normally-returning handler performs
during dispatch. -/
def respondAll (session : Nat) (acts : List RespAct) (w : Worker) : Worker :=
  acts.foldl (respond session) w

/-- `Sandbox.invoke(event_name, request, stream)` from sessioncontext.py:
look up the event in `_events`; if absent, log a warning and write the
sentinel error `(-100, "there is no handler for event ...")` to the stream
and return normally; if present, construct the handler and invoke it —
anything it raises propagates to the caller. -/
def Sandbox.invoke (registry : List (String × HandlerBehavior)) (eventName : String)
    (session : Nat) (w : Worker) : Except PyErr Worker :=
  match lookupReg eventName registry with
  | some (.returns acts) => .ok (respondAll session acts w)
  | some (.raisesFatal m) => .error (.fatal m)
  | some (.raisesRecoverable m) => .error (.recoverable m)
  | none => .ok (send_error session (-100) ("there is no handler for event " ++ eventName) w)

/-- `Worker.on_message`, branch by branch from worker.py. The second
component is an uncaught Python exception escaping `on_message` (only the
CHOKE branch can raise: its `_session.close()` is not inside any try).
In the CHUNK branch the table lookup `self.sessions[s]` itself is inside
the try, so a missing key raises KeyError — caught by `except Exception`
and turned into `terminate(1, "Push error: " + str(err))`, where
`str(KeyError(s))` is the decimal form of `s`. -/
def on_message (env : Env) (w : Worker) (m : Msg) : Worker × Option String :=
  match m with
  | .malformed => (w, none)
  | .invoke session event =>
      match Sandbox.invoke env.registry event session w with
      | .ok w1 =>
          ({ w1 with sessions := setSession session (env.newSink session) w1.sessions }, none)
      | .error (.fatal e) =>
          (terminate 1 "Bad code" (send_error session 2 ("unrecoverable error: " ++ e ++ " ") w),
           none)
      | .error (.recoverable _) =>
          (send_error session 1 "Invocation error" w, none)
  | .chunk session data =>
      match lookupSession session w.sessions with
      | none => (terminate 1 ("Push error: " ++ toString session) w, none)
      | some sink =>
          match sink.triggerFails with
          | none => ({ w with trace := w.trace ++ [.sink session (.chunkData data)] }, none)
          | some e => (terminate 1 ("Push error: " ++ e) w, none)
  | .choke session =>
      match lookupSession session w.sessions with
      | none => (w, none)
      | some sink =>
          match sink.closeFails with
          | some e => (w, some e)
          | none => ({ w with trace := w.trace ++ [.sink session .closed],
                              sessions := popSession session w.sessions }, none)
  | .heartbeat =>
      ({ w with disownTimer := none, trace := w.trace ++ [.disownStop] }, none)
  | .terminate errno reason => (terminate errno reason w, none)
  | .error session _ reason =>
      match lookupSession session w.sessions with
      | none => (w, none)
      | some _ => ({ w with trace := w.trace ++ [.sink session (.errored reason)] }, none)

/-- `Worker.on_heartbeat`: the periodic heartbeat timer fired. -/
def on_heartbeat (w : Worker) : Worker :=
  send_heartbeat w

/-- The startup tail of `Worker.__init__`: after connecting, send the
handshake and then the initial heartbeat (which arms the disown timer). -/
def startWorker (id : String) (dt : Nat) : Worker :=
  send_heartbeat (send_handshake id { disownTimeout := dt })

/-- Feed a list of decoded messages to the engine in order. Once the loop
is stopped no further callbacks run; an exception escaping `on_message`
aborts the run. -/
def runMsgs (env : Env) (w : Worker) : List Msg → Worker × Option String
  | [] => (w, none)
  | m :: ms =>
      if w.loopStopped then (w, none)
      else
        match on_message env w m with
        | (w1, none) => runMsgs env w1 ms
        | (w1, some e) => (w1, some e)

/-- The outgoing messages of a trace, in order. -/
def outMsgs (tr : List Ev) : List OutMsg :=
  tr.filterMap fun e => match e with | .out m => some m | _ => none

/-- Number of ERROR messages emitted for session `s` in a trace. -/
def errorCount (s : Nat) (tr : List Ev) : Nat :=
  (outMsgs tr).countP fun m => match m with | .error t _ _ => t == s | _ => false

/-- Number of TERMINATE messages emitted in a trace. -/
def terminateCount (tr : List Ev) : Nat :=
  (outMsgs tr).countP fun m => match m with | .terminate _ _ => true | _ => false

/-- Dispatch for `e` returns without raising: either a normally-returning
handler is registered, or none is (the sentinel-error path). -/
def dispatchReturnsNormally (registry : List (String × HandlerBehavior)) (e : String) : Bool :=
  match lookupReg e registry with
  | some (.returns _) => true
  | some (.raisesFatal _) => false
  | some (.raisesRecoverable _) => false
  | none => true

/-! Concrete fixtures used by witnesses and counterexamples. -/

def defaultSink : Sink := {}

def env0 : Env := { registry := [], newSink := fun _ => defaultSink }

def envR : Env :=
  { registry := [("ok", .returns []),
                 ("boom", .raisesRecoverable "oops"),
                 ("bad", .raisesFatal "no module named x")],
    newSink := fun _ => defaultSink }

def w0 : Worker := {}

def wS : Worker := { sessions := [(4, defaultSink)] }

def wCF : Worker := { sessions := [(2, { closeFails := some "close boom" })] }

/-! Helper lemmas about the Session Table and the trace. -/

theorem lookupSession_setSession_self (s : Nat) (v : Sink) (l : List (Nat × Sink)) :
    lookupSession s (setSession s v l) = some v := by
  induction l with
  | nil => simp [setSession, lookupSession]
  | cons kv rest ih =>
      obtain ⟨k, w⟩ := kv
      by_cases hk : k = s
      · simp [setSession, hk, lookupSession]
      · simp [setSession, hk, lookupSession, ih]

theorem popSession_setSession (s : Nat) (v : Sink) (l : List (Nat × Sink)) :
    popSession s (setSession s v l) = popSession s l := by
  induction l with
  | nil => simp [setSession, popSession]
  | cons kv rest ih =>
      obtain ⟨k, w⟩ := kv
      by_cases hk : k = s
      · simp [setSession, hk, popSession]
      · simp [setSession, hk, popSession, ih]

theorem length_setSession_of_none (s : Nat) (v : Sink) (l : List (Nat × Sink))
    (h : lookupSession s l = none) :
    (setSession s v l).length = l.length + 1 := by
  induction l with
  | nil => simp [setSession]
  | cons kv rest ih =>
      obtain ⟨k, w⟩ := kv
      by_cases hk : k = s
      · simp [lookupSession, hk] at h
      · simp [lookupSession, hk] at h
        simp [setSession, hk, ih h]

theorem respond_sessions (s : Nat) (w : Worker) (a : RespAct) :
    (respond s w a).sessions = w.sessions := by
  cases a <;> rfl

theorem respondAll_sessions (s : Nat) (acts : List RespAct) (w : Worker) :
    (respondAll s acts w).sessions = w.sessions := by
  induction acts generalizing w with
  | nil => rfl
  | cons a acts ih =>
      show (respondAll s acts (respond s w a)).sessions = w.sessions
      rw [ih, respond_sessions]

theorem runMsgs_stopped (env : Env) (w : Worker) (ms : List Msg)
    (h : w.loopStopped = true) :
    runMsgs env w ms = (w, none) := by
  cases ms with
  | nil => rfl
  | cons m ms => simp [runMsgs, h]

theorem outMsgs_append (t1 t2 : List Ev) :
    outMsgs (t1 ++ t2) = outMsgs t1 ++ outMsgs t2 := by
  simp [outMsgs]

/-! Claim theorems. -/

/-- Claim C1, counterexample: a CHUNK for session 5 arriving with an empty
Session Table is not ignored — the engine emits a TERMINATE message, stops
the scheduler and exits with status 1, contradicting the claim that no
outgoing message is emitted and the Terminate path is not entered. -/
theorem C1_counterexample :
    on_message env0 w0 (Msg.chunk 5 "payload") =
      ({ w0 with trace := [Ev.out (OutMsg.terminate 1 "Push error: 5"), Ev.loopStop, Ev.exited 1],
                 loopStopped := true, exitCode := some 1 }, none) ∧
    (on_message env0 w0 (Msg.chunk 5 "payload")).1.exitCode ≠ none ∧
    outMsgs (on_message env0 w0 (Msg.chunk 5 "payload")).1.trace ≠ [] := by
  refine ⟨rfl, ?_, ?_⟩ <;> decide

/-- Claim C1 as amended: a CHUNK whose session id has no Session Table
entry makes the engine enter the Terminate path: the KeyError raised by the
table lookup is caught by the surrounding except clause and treated as a
push failure, so the engine emits TERMINATE(1, "Push error: <id>"), stops
the scheduler and exits with status 1; no exception escapes and nothing is
delivered to any sink. -/
theorem C1_theorem (env : Env) (w : Worker) (s : Nat) (d : String)
    (h : lookupSession s w.sessions = none) :
    on_message env w (Msg.chunk s d) =
      (terminate 1 ("Push error: " ++ toString s) w, none) := by
  simp [on_message, h]

/-- Witness for C1_theorem at a concrete input. -/
theorem C1_witness :
    lookupSession 5 w0.sessions = none ∧
    on_message env0 w0 (Msg.chunk 5 "payload") =
      (terminate 1 ("Push error: " ++ toString 5) w0, none) :=
  ⟨rfl, C1_theorem env0 w0 5 "payload" rfl⟩

/-- Claim C2, counterexample: when the disown timer elapses, `on_disown`
only stops the loop — after it fires on a fresh worker the exit code is
still `none`, contradicting the claim that the process exits with a
non-zero status. -/
theorem C2_counterexample :
    (on_disown w0).loopStopped = true ∧
    outMsgs (on_disown w0).trace = [] ∧
    (on_disown w0).exitCode = none := by
  refine ⟨rfl, ?_, rfl⟩
  decide

/-- Claim C2 as amended: when the disown timer elapses before a HEARTBEAT
is received, the engine stops the scheduler and sends no further message
(in particular no TERMINATE), but it does not itself exit the process: the
disown path never calls exit, so the exit status is left untouched. -/
theorem C2_theorem (w : Worker) :
    (on_disown w).loopStopped = true ∧
    outMsgs (on_disown w).trace = outMsgs w.trace ∧
    (on_disown w).exitCode = w.exitCode ∧
    (on_disown w).sessions = w.sessions := by
  refine ⟨rfl, ?_, rfl, rfl⟩
  simp [on_disown, outMsgs]

/-- Claim C6: a CHOKE or an ERROR message for a session id with no active
Session Table entry is a no-op: the state (table, trace, timers, exit
status) is returned unchanged and no exception escapes. -/
theorem C6_theorem (env : Env) (w : Worker) (s : Nat) (c : Int) (r : String)
    (h : lookupSession s w.sessions = none) :
    on_message env w (Msg.choke s) = (w, none) ∧
    on_message env w (Msg.error s c r) = (w, none) := by
  constructor <;> simp [on_message, h]

/-- Witness for C6_theorem at a concrete input. -/
theorem C6_witness :
    lookupSession 9 w0.sessions = none ∧
    on_message env0 w0 (Msg.choke 9) = (w0, none) ∧
    on_message env0 w0 (Msg.error 9 3 "late") = (w0, none) :=
  ⟨rfl, C6_theorem env0 w0 9 3 "late" rfl⟩

/-- Claim C7: receiving a TERMINATE(errno, reason) makes the engine call
`terminate(errno, reason)`: exactly one TERMINATE message carrying that
errno and reason is written, the scheduler is stopped and the process exits
with status 1 (non-zero). -/
theorem C7_theorem (env : Env) (w : Worker) (errno : Int) (reason : String) :
    on_message env w (Msg.terminate errno reason) =
      ({ w with trace := w.trace ++ [Ev.out (OutMsg.terminate errno reason),
                                     Ev.loopStop, Ev.exited 1],
                loopStopped := true, exitCode := some 1 }, none) ∧
    terminateCount (on_message env w (Msg.terminate errno reason)).1.trace =
      terminateCount w.trace + 1 := by
  refine ⟨rfl, ?_⟩
  simp [on_message, terminate, terminateCount, outMsgs_append, outMsgs, List.countP_append,
        List.countP_cons, List.countP_nil]

/-- Claim C8: every heartbeat emission — the initial one at startup and
every periodic `on_heartbeat` fire — first (re)arms the disown timer with
its full configured duration and only then writes the HEARTBEAT message
(the trace records `disownStart` strictly before the outgoing heartbeat);
and every HEARTBEAT received from the peer stops the disown timer. -/
theorem C8_theorem (env : Env) (w : Worker) (id : String) (dt : Nat) :
    send_heartbeat w =
      { w with disownTimer := some w.disownTimeout,
               trace := w.trace ++ [Ev.disownStart, Ev.out OutMsg.heartbeat] } ∧
    on_heartbeat w = send_heartbeat w ∧
    (startWorker id dt).disownTimer = some dt ∧
    outMsgs (startWorker id dt).trace = [OutMsg.handshake id, OutMsg.heartbeat] ∧
    on_message env w Msg.heartbeat =
      ({ w with disownTimer := none, trace := w.trace ++ [Ev.disownStop] }, none) := by
  refine ⟨rfl, rfl, rfl, ?_, rfl⟩
  simp [startWorker, send_heartbeat, send_handshake, outMsgs]

/-- Claim C3: an INVOKE whose handler dispatch returns without raising —
including the case where no handler is registered, in which dispatch writes
the sentinel error (-100, "there is no handler for event ...") and returns
normally — inserts exactly one Session Table entry keyed by the message's
session id: the id now maps to the fresh continuation sink, every other
entry is untouched, the table grows by one when the id was absent, and no
exception escapes. -/
theorem C3_theorem (env : Env) (w : Worker) (s : Nat) (e : String)
    (h : dispatchReturnsNormally env.registry e = true) :
    (on_message env w (Msg.invoke s e)).2 = none ∧
    lookupSession s (on_message env w (Msg.invoke s e)).1.sessions = some (env.newSink s) ∧
    popSession s (on_message env w (Msg.invoke s e)).1.sessions = popSession s w.sessions ∧
    (lookupSession s w.sessions = none →
      (on_message env w (Msg.invoke s e)).1.sessions.length = w.sessions.length + 1) ∧
    (lookupReg e env.registry = none →
      (on_message env w (Msg.invoke s e)).1.trace =
        w.trace ++ [Ev.out (OutMsg.error s (-100) ("there is no handler for event " ++ e))]) := by
  rcases hR : lookupReg e env.registry with _ | hb
  · have hstep : on_message env w (Msg.invoke s e) =
        ({ w with trace := w.trace ++
                    [Ev.out (OutMsg.error s (-100) ("there is no handler for event " ++ e))],
                  sessions := setSession s (env.newSink s) w.sessions }, none) := by
      simp [on_message, Sandbox.invoke, hR, send_error]
    refine ⟨?_, ?_, ?_, ?_, ?_⟩
    · rw [hstep]
    · rw [hstep]
      exact lookupSession_setSession_self s _ _
    · rw [hstep]
      exact popSession_setSession s _ _
    · intro h1
      rw [hstep]
      exact length_setSession_of_none s _ _ h1
    · intro _
      rw [hstep]
  · cases hb with
    | returns acts =>
        have hsess : (on_message env w (Msg.invoke s e)).1.sessions =
            setSession s (env.newSink s) w.sessions := by
          simp [on_message, Sandbox.invoke, hR, respondAll_sessions]
        refine ⟨?_, ?_, ?_, ?_, ?_⟩
        · simp [on_message, Sandbox.invoke, hR]
        · rw [hsess]
          exact lookupSession_setSession_self s _ _
        · rw [hsess]
          exact popSession_setSession s _ _
        · intro h1
          rw [hsess]
          exact length_setSession_of_none s _ _ h1
        · intro h2
          exact Option.noConfusion h2
    | raisesFatal m => simp [dispatchReturnsNormally, hR] at h
    | raisesRecoverable m => simp [dispatchReturnsNormally, hR] at h

/-- Witness for C3_theorem at a concrete input (no handler registered). -/
theorem C3_witness :
    dispatchReturnsNormally env0.registry "nope" = true ∧
    lookupSession 7 (on_message env0 w0 (Msg.invoke 7 "nope")).1.sessions =
      some (env0.newSink 7) ∧
    (on_message env0 w0 (Msg.invoke 7 "nope")).1.trace =
      w0.trace ++ [Ev.out (OutMsg.error 7 (-100) ("there is no handler for event " ++ "nope"))] :=
  ⟨rfl, (C3_theorem env0 w0 7 "nope" rfl).2.1,
   (C3_theorem env0 w0 7 "nope" rfl).2.2.2.2 rfl⟩

/-- Claim C4: an INVOKE whose handler dispatch raises a fatal-class error
(ImportError/SyntaxError) makes the engine send exactly one ERROR for that
session with the fixed fatal-class code 2, then enter the Terminate path
with reason "Bad code": exactly one TERMINATE message, scheduler stopped,
exit status 1; no Session Table entry is created and no further message is
ever processed. -/
theorem C4_theorem (env : Env) (w : Worker) (s : Nat) (e m : String)
    (h : lookupReg e env.registry = some (HandlerBehavior.raisesFatal m)) :
    on_message env w (Msg.invoke s e) =
      ({ w with trace := w.trace ++
                  [Ev.out (OutMsg.error s 2 ("unrecoverable error: " ++ m ++ " ")),
                   Ev.out (OutMsg.terminate 1 "Bad code"), Ev.loopStop, Ev.exited 1],
                loopStopped := true, exitCode := some 1 }, none) ∧
    errorCount s (on_message env w (Msg.invoke s e)).1.trace = errorCount s w.trace + 1 ∧
    terminateCount (on_message env w (Msg.invoke s e)).1.trace = terminateCount w.trace + 1 ∧
    (on_message env w (Msg.invoke s e)).1.sessions = w.sessions ∧
    (∀ ms, runMsgs env (on_message env w (Msg.invoke s e)).1 ms =
      ((on_message env w (Msg.invoke s e)).1, none)) := by
  have hstep : on_message env w (Msg.invoke s e) =
      ({ w with trace := w.trace ++
                  [Ev.out (OutMsg.error s 2 ("unrecoverable error: " ++ m ++ " ")),
                   Ev.out (OutMsg.terminate 1 "Bad code"), Ev.loopStop, Ev.exited 1],
                loopStopped := true, exitCode := some 1 }, none) := by
    simp [on_message, Sandbox.invoke, h, terminate, send_error]
  refine ⟨hstep, ?_, ?_, ?_, ?_⟩
  · rw [hstep]
    simp [errorCount, outMsgs_append, outMsgs, List.countP_append, List.countP_cons,
          List.countP_nil]
  · rw [hstep]
    simp [terminateCount, outMsgs_append, outMsgs, List.countP_append, List.countP_cons,
          List.countP_nil]
  · rw [hstep]
  · intro ms
    rw [hstep]
    exact runMsgs_stopped env _ ms rfl

/-- Witness for C4_theorem at a concrete input. -/
theorem C4_witness :
    lookupReg "bad" envR.registry = some (HandlerBehavior.raisesFatal "no module named x") ∧
    errorCount 3 (on_message envR w0 (Msg.invoke 3 "bad")).1.trace = errorCount 3 w0.trace + 1 ∧
    terminateCount (on_message envR w0 (Msg.invoke 3 "bad")).1.trace =
      terminateCount w0.trace + 1 := by
  have hreg : lookupReg "bad" envR.registry =
      some (HandlerBehavior.raisesFatal "no module named x") := by decide
  exact ⟨hreg, (C4_theorem envR w0 3 "bad" "no module named x" hreg).2.1,
         (C4_theorem envR w0 3 "bad" "no module named x" hreg).2.2.1⟩

/-- Claim C5: an INVOKE whose handler dispatch raises any non-fatal error
makes the engine send exactly one ERROR for that session with the fixed
code 1 (different from the fatal-class code 2), create no Session Table
entry, leave the scheduler running and the exit status untouched, and
continue processing subsequent messages. -/
theorem C5_theorem (env : Env) (w : Worker) (s : Nat) (e m : String)
    (h : lookupReg e env.registry = some (HandlerBehavior.raisesRecoverable m)) :
    on_message env w (Msg.invoke s e) =
      ({ w with trace := w.trace ++ [Ev.out (OutMsg.error s 1 "Invocation error")] }, none) ∧
    errorCount s (on_message env w (Msg.invoke s e)).1.trace = errorCount s w.trace + 1 ∧
    (on_message env w (Msg.invoke s e)).1.sessions = w.sessions ∧
    (on_message env w (Msg.invoke s e)).1.loopStopped = w.loopStopped ∧
    (on_message env w (Msg.invoke s e)).1.exitCode = w.exitCode ∧
    (w.loopStopped = false → ∀ ms,
      runMsgs env w (Msg.invoke s e :: ms) =
        runMsgs env (on_message env w (Msg.invoke s e)).1 ms) := by
  have hstep : on_message env w (Msg.invoke s e) =
      ({ w with trace := w.trace ++ [Ev.out (OutMsg.error s 1 "Invocation error")] }, none) := by
    simp [on_message, Sandbox.invoke, h, send_error]
  refine ⟨hstep, ?_, ?_, ?_, ?_, ?_⟩
  · rw [hstep]
    simp [errorCount, outMsgs_append, outMsgs, List.countP_append, List.countP_cons,
          List.countP_nil]
  · rw [hstep]
  · rw [hstep]
  · rw [hstep]
  · intro hrun ms
    simp [runMsgs, hrun, hstep]

/-- Witness for C5_theorem at a concrete input. -/
theorem C5_witness :
    lookupReg "boom" envR.registry = some (HandlerBehavior.raisesRecoverable "oops") ∧
    on_message envR w0 (Msg.invoke 8 "boom") =
      ({ w0 with trace := w0.trace ++ [Ev.out (OutMsg.error 8 1 "Invocation error")] }, none) ∧
    (on_message envR w0 (Msg.invoke 8 "boom")).1.sessions = w0.sessions := by
  have hreg : lookupReg "boom" envR.registry =
      some (HandlerBehavior.raisesRecoverable "oops") := by decide
  exact ⟨hreg, (C5_theorem envR w0 8 "boom" "oops" hreg).1,
         (C5_theorem envR w0 8 "boom" "oops" hreg).2.2.1⟩

/-- Claim C9: an ERROR received for a session id with a live Session Table
entry delivers an error notification to that session's continuation sink,
and the entry remains in the table afterward — the ERROR dispatch path
never removes it. -/
theorem C9_theorem (env : Env) (w : Worker) (s : Nat) (c : Int) (r : String) (sink : Sink)
    (h : lookupSession s w.sessions = some sink) :
    on_message env w (Msg.error s c r) =
      ({ w with trace := w.trace ++ [Ev.sink s (SinkEvent.errored r)] }, none) ∧
    (on_message env w (Msg.error s c r)).1.sessions = w.sessions ∧
    lookupSession s (on_message env w (Msg.error s c r)).1.sessions = some sink := by
  have hstep : on_message env w (Msg.error s c r) =
      ({ w with trace := w.trace ++ [Ev.sink s (SinkEvent.errored r)] }, none) := by
    simp [on_message, h]
  refine ⟨hstep, ?_, ?_⟩
  · rw [hstep]
  · rw [hstep]
    exact h

/-- Witness for C9_theorem at a concrete input. -/
theorem C9_witness :
    lookupSession 4 wS.sessions = some defaultSink ∧
    on_message env0 wS (Msg.error 4 9 "boom") =
      ({ wS with trace := wS.trace ++ [Ev.sink 4 (SinkEvent.errored "boom")] }, none) :=
  ⟨rfl, (C9_theorem env0 wS 4 9 "boom" defaultSink rfl).1⟩

/-- Claim C10: CHOKE handling is not atomic with respect to removal — the
close of the continuation sink runs before the entry is removed, so when
that close raises, the exception escapes message dispatch uncaught (second
component `some e`), the session entry stays in the Session Table, nothing
is emitted and the Terminate path is not entered (exit status untouched). -/
theorem C10_theorem (env : Env) (w : Worker) (s : Nat) (sink : Sink) (e : String)
    (h1 : lookupSession s w.sessions = some sink) (h2 : sink.closeFails = some e) :
    on_message env w (Msg.choke s) = (w, some e) ∧
    lookupSession s (on_message env w (Msg.choke s)).1.sessions = some sink ∧
    (on_message env w (Msg.choke s)).1.exitCode = w.exitCode ∧
    outMsgs (on_message env w (Msg.choke s)).1.trace = outMsgs w.trace := by
  have hstep : on_message env w (Msg.choke s) = (w, some e) := by
    simp [on_message, h1, h2]
  refine ⟨hstep, ?_, ?_, ?_⟩
  · rw [hstep]
    exact h1
  · rw [hstep]
  · rw [hstep]

/-- Witness for C10_theorem at a concrete input. -/
theorem C10_witness :
    lookupSession 2 wCF.sessions = some { closeFails := some "close boom" } ∧
    on_message env0 wCF (Msg.choke 2) = (wCF, some "close boom") :=
  ⟨rfl, (C10_theorem env0 wCF 2 { closeFails := some "close boom" } "close boom" rfl rfl).1⟩

end Cocaine
